import Mathlib

/-!
Verification of the local-ml-pipeline house-price prediction core.

Shallow embedding of the feature-engineering, scaling, and
ensemble-confidence-interval logic of the repository:

* `src/models/predict.py`   (`HousePricePredictor`)
* `src/data/data_pipeline.py` (`DataPipeline`)
* `src/lambda/inference.py`  (`preprocess_features`, `create_response`, `handler`)

Numeric modelling: the feature-engineering stage works on exact rationals
(finite IEEE doubles are rationals, and the operations involved — the three
ratio features — are single divisions, modelled with explicit IEEE
inf/NaN behaviour via `PyFloat`).  The serving layer and the ensemble
aggregation are modelled over `ℝ` because `np.std` takes a square root.
-/

namespace LocalMLPipeline

/-- The 8 raw input fields, in the canonical order
`[MedInc, HouseAge, AveRooms, AveBedrms, Population, AveOccup, Latitude, Longitude]`
(see `src/api/main.py` `HouseFeaturesArray.to_dict` and the docstring of
`src/lambda/inference.py` `preprocess_features`). -/
structure RawFeatures where
  medInc : ℚ
  houseAge : ℚ
  aveRooms : ℚ
  aveBedrms : ℚ
  population : ℚ
  aveOccup : ℚ
  latitude : ℚ
  longitude : ℚ
deriving DecidableEq, Repr

/-- The 8 raw fields as an ordered list (the array form of the input). -/
def RawFeatures.toList (x : RawFeatures) : List ℚ :=
  [x.medInc, x.houseAge, x.aveRooms, x.aveBedrms, x.population, x.aveOccup,
   x.latitude, x.longitude]

/-- Result of a numpy/pandas floating-point operation on finite inputs:
either a finite value (kept exact as a rational), a signed infinity, or NaN. -/
inductive PyFloat where
  | fin (q : ℚ)
  | inf
  | ninf
  | nan
deriving DecidableEq, Repr, Inhabited

/-- numpy/pandas elementwise division of two finite values, as performed by
`df['AveRooms'] / df['AveOccup']` in `predict.py:36-38` and
`data_pipeline.py:39-41`: IEEE semantics, so a zero denominator gives
`+inf`/`-inf` for a nonzero numerator and `NaN` for `0/0`; no exception is
raised. -/
def pydiv (a b : ℚ) : PyFloat :=
  if b = 0 then
    if 0 < a then .inf
    else if a < 0 then .ninf
    else .nan
  else .fin (a / b)

/-- Feature-engineering stage of `HousePricePredictor.preprocess_input`
(`src/models/predict.py:35-38`): the row handed to `self.scaler.transform`,
i.e. the 8 raw columns followed by the three derived ratio columns
`rooms_per_household`, `bedrooms_per_room`, `population_per_household`. -/
def preprocess_input_engineered (x : RawFeatures) : List PyFloat :=
  x.toList.map .fin ++
    [pydiv x.aveRooms x.aveOccup,
     pydiv x.aveBedrms x.aveRooms,
     pydiv x.population x.aveOccup]

/-- Feature-engineering stage of `DataPipeline.preprocess_data`
(`src/data/data_pipeline.py:38-44`), per row: the engineered columns appended
to a (NaN-free, `dropna`-surviving) row, with the `target` column dropped
before scaling, leaving the 8 raw columns followed by `rooms_per_household`,
`bedrooms_per_room`, `population_per_household` in that order. -/
def preprocess_data_engineered (x : RawFeatures) : List PyFloat :=
  x.toList.map .fin ++
    [pydiv x.aveRooms x.aveOccup,
     pydiv x.aveBedrms x.aveRooms,
     pydiv x.population x.aveOccup]

/-- Embedding of `preprocess_features` (`src/lambda/inference.py:90-110`): the row the
cloud handler presents to `scaler.transform`.  The code only does
`np.array(features).reshape(1, -1)` — the raw 8 values pass through
unchanged and **no** ratio features are appended. -/
def preprocess_features_scaler_arg (features : List ℚ) : List ℚ :=
  features

/-! JSON-like values exchanged by the serving layers.

Numbers are modelled over `ℝ` (the handler's confidence branch takes a square
root).  A response dict, the parsed request body, and nested objects such as
`confidence_interval` are all `JVal`s; `create_response` serialises its body
with `json.dumps`, which we keep as the structured value. -/

/-- A Python/JSON value as passed around by `inference.py`, `predict.py` and
`api/main.py`: numbers, strings, booleans, `None`, lists and dicts
(dicts as insertion-ordered key/value lists, matching Python 3 semantics). -/
inductive JVal where
  | num (r : ℝ)
  | str (s : String)
  | bool (b : Bool)
  | null
  | arr (xs : List JVal)
  | obj (kvs : List (String × JVal))

/-- Dict lookup `d[k]` restricted to objects: `some` value for a present key,
`none` for a missing key or a non-dict. -/
def JVal.lookup (j : JVal) (k : String) : Option JVal :=
  match j with
  | .obj kvs => (kvs.find? (fun kv => kv.1 = k)).map (fun kv => kv.2)
  | _ => none

/-- The ordered key list of a dict value (`list(d.keys())`). -/
def JVal.keys (j : JVal) : Option (List String) :=
  match j with
  | .obj kvs => some (kvs.map (fun kv => kv.1))
  | _ => none

/-- The `np.mean` of a 1-d array, as a real (values carried as a list). -/
noncomputable def npMean (l : List ℝ) : ℝ := l.sum / l.length

/-- The `np.std` of a 1-d array with the default `ddof=0`: the population
standard deviation, `sqrt(mean((p - mean(p))^2))`. -/
noncomputable def npStd (l : List ℝ) : ℝ :=
  Real.sqrt ((l.map (fun p => (p - npMean l) ^ 2)).sum / l.length)

/-! The fitted scaler and the model, as the serving code sees them. -/

/-- A fitted `sklearn.preprocessing.StandardScaler`, reduced to the state the
serving code reads.  Modelled from the spec: sklearn is an external library;
§4.2 of the specification gives its contract — `fit` stores per-column mean
and standard deviation, `transform` applies `(x - mean) / std` per column and
fails if called with a column count different from what was fit. -/
structure SkScaler where
  mean : List ℝ
  scale : List ℝ

/-- Modelled from the spec: `StandardScaler.transform` on a single row —
`(x - mean) / std` per column, failing on a column-count mismatch
(spec §4.2; sklearn itself is not part of the repository). -/
noncomputable def SkScaler.transform (s : SkScaler) (x : List ℝ) :
    Except String (List ℝ) :=
  if x.length = s.mean.length ∧ s.mean.length = s.scale.length then
    .ok ((x.zip (s.mean.zip s.scale)).map (fun p => (p.1 - p.2.1) / p.2.2))
  else
    .error "X has a different number of features than the fitted scaler"

/-- A loaded regression model as the serving code uses it: a point-prediction
function on a scaled row, and — when the model is an ensemble (duck-typed
`hasattr(model, 'estimators_')`) — the list of per-member sub-estimators,
each itself a point-prediction function on the same scaled row. -/
structure SkModel where
  predictFn : List ℝ → ℝ
  estimators : Option (List (List ℝ → ℝ))

/-- Embedding of `HousePricePredictor.predict_with_confidence`
(`src/models/predict.py:60-83`), single-row case, taking the already
preprocessed (engineered + scaled) row `X`:

* ensemble model: per-member predictions, their mean as the point
  prediction, and a `confidence_interval` dict with keys `lower`/`upper`
  set to `mean ∓ 1.96 * std`;
* otherwise: just `{'prediction': self.predict(...)}`. -/
noncomputable def predict_with_confidence (m : SkModel) (X : List ℝ) : JVal :=
  match m.estimators with
  | some es =>
      let ps := es.map (fun e => e X)
      let mean_pred := npMean ps
      let std_pred := npStd ps
      .obj [("prediction", .num mean_pred),
            ("confidence_interval",
              .obj [("lower", .num (mean_pred - 1.96 * std_pred)),
                    ("upper", .num (mean_pred + 1.96 * std_pred))])]
  | none =>
      .obj [("prediction", .num (m.predictFn X))]

/-! The cloud handler (`src/lambda/inference.py`). -/

/-- The `body` entry of an API-Gateway event: either a JSON string — carried
as its parse result, `none` meaning `json.loads` raises `JSONDecodeError` —
or an already-parsed (non-string) value, which `handler` uses as-is
(`inference.py:170`). -/
inductive EventBody where
  | str (parsed : Option JVal)
  | val (j : JVal)

/-- An API-Gateway event as read by `handler`: the `httpMethod`, `path` and
`body` entries, each possibly absent (`event.get(...)` / `'body' in event`). -/
structure LambdaEvent where
  httpMethod : Option String
  path : Option String
  body : Option EventBody

/-- The response dict built by `create_response` (`inference.py:113-124`).
`body` is kept structured; the code serialises it with `json.dumps`. -/
structure LambdaResponse where
  statusCode : ℕ
  headers : List (String × String)
  body : JVal

/-- Embedding of `create_response` (`inference.py:113-124`): wraps a status code and a
body dict with the fixed CORS/content-type headers; the body is serialised
with `json.dumps`. -/
def create_response (status_code : ℕ) (body : JVal) : LambdaResponse :=
  { statusCode := status_code
    headers := [("Content-Type", "application/json"),
                ("Access-Control-Allow-Origin", "*"),
                ("Access-Control-Allow-Headers", "Content-Type,Authorization"),
                ("Access-Control-Allow-Methods", "GET,POST,OPTIONS")]
    body := body }

/-- The handler's environment: the outcome of `load_model_from_s3()` (either
the loaded model and scaler, or the exception message), and the Python
`f'{v:.2f}'` float formatting used in the description strings (external
runtime behaviour, abstracted as a function). -/
structure LambdaEnv where
  load : Except String (SkModel × SkScaler)
  fmt : ℝ → String

/-- Which effectful stages of `handler` ran before it returned: whether
`load_model_from_s3` was invoked, whether `scaler.transform` was invoked,
and whether any `model.predict` call was made. -/
structure Trace where
  modelLoadAttempted : Bool
  scalingAttempted : Bool
  predictionAttempted : Bool
deriving DecidableEq, Repr

/-- Embedding of `json.loads(event['body']) if isinstance(event['body'], str) else
event['body']` (`inference.py:170`): a string body is its parse result
(`.error` = `JSONDecodeError`), a non-string body is used directly. -/
def parseBody (eb : EventBody) : Except Unit JVal :=
  match eb with
  | .str none => .error ()
  | .str (some j) => .ok j
  | .val j => .ok j

/-- Python `'features' in body` (`inference.py:173`): key membership for a
dict, element membership for a list, substring test for a string, and a
`TypeError` (caught by the generic `except` → 500) for any other value. -/
def containsFeaturesKey (j : JVal) : Except Unit Bool :=
  match j with
  | .obj kvs => .ok ((kvs.find? (fun kv => kv.1 = "features")).isSome)
  | .arr xs => .ok (xs.any (fun x => match x with
      | .str s => s = "features"
      | _ => false))
  | .str s => .ok (s.containsSubstr "features")
  | _ => .error ()

/-- Embedding of `body['features']` (`inference.py:184`): dict lookup; indexing a list or
string with a string key raises `TypeError` (generic `except` → 500). -/
def getFeatures (j : JVal) : Except Unit JVal :=
  match j with
  | .obj kvs =>
      match kvs.find? (fun kv => kv.1 = "features") with
      | some kv => .ok kv.2
      | none => .error ()
  | _ => .error ()

/-- The validation at `inference.py:187`:
`isinstance(features, list) and len(features) == 8`. -/
def isListOf8 (j : JVal) : Bool :=
  match j with
  | .arr xs => xs.length = 8
  | _ => false

/-- The 400 body for a failed feature validation (`inference.py:188-191`),
including the `received` diagnostic. -/
def featureCountError (features : JVal) : JVal :=
  .obj [("error", .str "Features must be a list of 8 numbers"),
        ("received", match features with
          | .arr xs => .num xs.length
          | _ => .str "not a list")]

/-- Conversion `np.array(features)` into a numeric row for `scaler.transform`:
succeeds only when every element is a number; otherwise the downstream
sklearn call raises (generic `except` → 500). -/
def toNums : List JVal → Except Unit (List ℝ)
  | [] => .ok []
  | .num r :: rest => (toNums rest).map (fun l => r :: l)
  | _ :: _ => .error ()

/-- The generic 500 body (`inference.py:243-246`). -/
def internalError (details : String) : JVal :=
  .obj [("error", .str "Internal server error during prediction"),
        ("details", .str details)]

/-- The `POST /predict` / `POST /predict/confidence` branch of `handler`
(`inference.py:164-246`), with its surrounding `try/except`: body presence
and parse checks, feature extraction and validation, model/scaler load,
preprocessing, point prediction, and — on the confidence path for an
ensemble model — the 95% interval built from `prediction ∓ 1.96 * std` of
the per-estimator predictions. -/
noncomputable def predictRoute (env : LambdaEnv) (event : LambdaEvent)
    (path : String) : LambdaResponse × Trace :=
  match event.body with
  | none =>
      (create_response 400 (.obj [("error", .str "Missing request body")]),
       ⟨false, false, false⟩)
  | some eb =>
    match parseBody eb with
    | .error _ =>
        (create_response 400 (.obj [("error", .str "Invalid JSON in request body")]),
         ⟨false, false, false⟩)
    | .ok bodyJ =>
      match containsFeaturesKey bodyJ with
      | .error _ =>
          (create_response 500 (internalError "TypeError"), ⟨false, false, false⟩)
      | .ok false =>
          (create_response 400 (.obj [("error", .str "Missing features in request body"),
            ("expected_format", .obj [("features", .arr
              [.str "MedInc", .str "HouseAge", .str "AveRooms", .str "AveBedrms",
               .str "Population", .str "AveOccup", .str "Latitude", .str "Longitude"])])]),
           ⟨false, false, false⟩)
      | .ok true =>
        match getFeatures bodyJ with
        | .error _ =>
            (create_response 500 (internalError "TypeError"), ⟨false, false, false⟩)
        | .ok features =>
          if isListOf8 features then
            match env.load with
            | .error e =>
                (create_response 500 (internalError e), ⟨true, false, false⟩)
            | .ok (model, scaler) =>
              match features with
              | .arr xs =>
                match toNums xs with
                | .error _ =>
                    (create_response 500 (internalError "could not convert string to float"),
                     ⟨true, true, false⟩)
                | .ok nums =>
                  match scaler.transform nums with
                  | .error e =>
                      (create_response 500 (internalError e), ⟨true, true, false⟩)
                  | .ok features_scaled =>
                    let prediction := model.predictFn features_scaled
                    let base : List (String × JVal) :=
                      [("prediction", .num prediction),
                       ("prediction_description",
                         .str ("Predicted median house value: $" ++
                           env.fmt (prediction * 100000))),
                       ("features_received", features)]
                    if path = "/predict/confidence" then
                      match model.estimators with
                      | some es =>
                          let estimator_predictions := es.map (fun e => e features_scaled)
                          let std_dev := npStd estimator_predictions
                          let confidence_interval := 1.96 * std_dev
                          (create_response 200 (.obj (base ++
                            [("confidence_interval",
                              .obj [("lower_bound", .num (prediction - confidence_interval)),
                                    ("upper_bound", .num (prediction + confidence_interval)),
                                    ("std_dev", .num std_dev)]),
                             ("confidence_interval_description",
                               .str ("95% confidence: $" ++
                                 env.fmt ((prediction - confidence_interval) * 100000) ++
                                 " - $" ++
                                 env.fmt ((prediction + confidence_interval) * 100000)))])),
                           ⟨true, true, true⟩)
                      | none =>
                          (create_response 200 (.obj (base ++
                            [("warning",
                              .str "Confidence interval not available for non-ensemble models")])),
                           ⟨true, true, true⟩)
                    else
                      (create_response 200 (.obj base), ⟨true, true, true⟩)
              | _ =>
                  (create_response 500 (internalError "unreachable"), ⟨true, false, false⟩)
          else
            (create_response 400 (featureCountError features), ⟨false, false, false⟩)

/-- Embedding of `handler` (`src/lambda/inference.py:127-258`): method/path dispatch —
CORS preflight, `GET /health` (load model, 200/503), the two POST prediction
routes, and the 404 fallback.  Returns the response together with the
`Trace` of which effectful stages ran. -/
noncomputable def handler (env : LambdaEnv) (event : LambdaEvent) :
    LambdaResponse × Trace :=
  let http_method := event.httpMethod.getD "GET"
  let path := event.path.getD "/"
  if http_method = "OPTIONS" then
    (create_response 200 (.obj [("message", .str "OK")]), ⟨false, false, false⟩)
  else if path = "/health" ∧ http_method = "GET" then
    match env.load with
    | .ok _ =>
        (create_response 200 (.obj [("status", .str "healthy"),
          ("model_loaded", .bool true),
          ("message", .str "ML Inference service is running")]),
         ⟨true, false, false⟩)
    | .error e =>
        (create_response 503 (.obj [("status", .str "unhealthy"),
          ("model_loaded", .bool false), ("error", .str e)]),
         ⟨true, false, false⟩)
  else if (path = "/predict" ∨ path = "/predict/confidence") ∧ http_method = "POST" then
    predictRoute env event path
  else
    (create_response 404 (.obj [("error", .str "Not found"),
      ("path", .str path), ("method", .str http_method),
      ("available_endpoints", .obj
        [("GET /health", .str "Health check"),
         ("POST /predict", .str "Single prediction"),
         ("POST /predict/confidence", .str "Prediction with confidence interval")])]),
     ⟨false, false, false⟩)

/-! Concrete artifacts used to instantiate the theorems. -/

/-- The end-to-end example input of the specification (§8):
`{MedInc:8.3252, HouseAge:41, AveRooms:6.984, AveBedrms:1.024,
Population:322, AveOccup:2.555, Latitude:37.88, Longitude:-122.23}`. -/
def exampleRaw : RawFeatures :=
  ⟨83252/10000, 41, 6984/1000, 1024/1000, 322, 2555/1000, 3788/100, -12223/100⟩

/-- The zero-denominator input of
`tests/test_lambda_unit.py::test_preprocess_features_zero_division`
(`AveRooms = 0` and `AveOccup = 0`). -/
def zeroDenomRaw : RawFeatures :=
  ⟨83252/10000, 41, 0, 1024/1000, 322, 0, 3788/100, -12223/100⟩

/-- A fitted scaler over 8 columns (identity standardisation). -/
noncomputable def demoScaler : SkScaler :=
  ⟨List.replicate 8 0, List.replicate 8 1⟩

/-- Two sub-estimators predicting the constants 4.5 and 4.7 (mirroring
`tests/test_lambda_unit.py::test_handler_confidence_with_ensemble`). -/
noncomputable def demoEstimators : List (List ℝ → ℝ) :=
  [fun _ => 4.5, fun _ => 4.7]

/-- A two-member ensemble model: the members predict 4.5 and 4.7, the model
itself predicts 4.6. -/
noncomputable def demoEnsembleModel : SkModel :=
  ⟨fun _ => 4.6, some demoEstimators⟩

/-- A non-ensemble model (no `estimators_` attribute), predicting 4.6. -/
noncomputable def demoPointModel : SkModel :=
  ⟨fun _ => 4.6, none⟩

/-- An environment whose model load yields the ensemble model. -/
noncomputable def demoEnvEnsemble : LambdaEnv :=
  ⟨.ok (demoEnsembleModel, demoScaler), fun _ => ""⟩

/-- An environment whose model load yields the non-ensemble model. -/
noncomputable def demoEnvPoint : LambdaEnv :=
  ⟨.ok (demoPointModel, demoScaler), fun _ => ""⟩

/-- The example input as the 8-element numeric array of the request body. -/
noncomputable def demoNums : List ℝ :=
  [8.3252, 41, 6.984, 1.024, 322, 2.555, 37.88, -122.23]

/-- A well-formed `POST /predict/confidence` event carrying `demoNums`. -/
noncomputable def demoEventConfidence : LambdaEvent :=
  ⟨some "POST", some "/predict/confidence",
   some (.val (.obj [("features", .arr (demoNums.map .num))]))⟩

/-- A `POST /predict` event whose features list has only 3 elements. -/
noncomputable def badCountEvent : LambdaEvent :=
  ⟨some "POST", some "/predict",
   some (.val (.obj [("features", .arr [.num 1, .num 2, .num 3])]))⟩

/-- The scaled row `demoScaler.transform demoNums` produces. -/
noncomputable def demoScaled : List ℝ :=
  match demoScaler.transform demoNums with
  | .ok l => l
  | .error _ => []

/-! Theorems. -/

/-- The two copies of the feature-engineering code (`predict.py:35-38` and
`data_pipeline.py:38-44`) produce the same engineered row. -/
theorem preprocess_data_eq_preprocess_input (x : RawFeatures) :
    preprocess_data_engineered x = preprocess_input_engineered x := rfl

/-- Claim C1 (code bug): at the specification's own example input, the local
predictor and the training pipeline hand the scaler the same 11-dimensional
engineered vector, but the cloud handler's `preprocess_features` hands the
scaler the unmodified 8 raw values — the three ratio features are never
computed, contradicting the repository's own unit tests
(`test_preprocess_features_valid_input` asserts the scaler receives shape
`(1, 11)`). -/
theorem lambda_preprocess_skips_feature_engineering :
    preprocess_data_engineered exampleRaw = preprocess_input_engineered exampleRaw ∧
    preprocess_features_scaler_arg exampleRaw.toList = exampleRaw.toList ∧
    (preprocess_features_scaler_arg exampleRaw.toList).length = 8 ∧
    (preprocess_input_engineered exampleRaw).length = 11 ∧
    (preprocess_features_scaler_arg exampleRaw.toList).map PyFloat.fin ≠
      preprocess_input_engineered exampleRaw := by
  refine ⟨rfl, rfl, rfl, rfl, fun h => ?_⟩
  have hlen := congrArg List.length h
  simp [preprocess_features_scaler_arg, preprocess_input_engineered,
    RawFeatures.toList] at hlen

/-- Claim C2 (code bug): at the zero-denominator input used by the repository's
own test `test_preprocess_features_zero_division` (`AveRooms = 0`,
`AveOccup = 0`), the feature-engineering division of `predict.py:36-38` /
`data_pipeline.py:39-41` produces `NaN` (for `0/0`) and `+inf` (for a
positive numerator over `0`) — never `0` as the claim states.  (The cloud
handler computes no ratios at all; see the C1 theorem.) -/
theorem zero_denominator_gives_nan_and_inf :
    preprocess_input_engineered zeroDenomRaw =
      zeroDenomRaw.toList.map PyFloat.fin ++ [.nan, .inf, .inf] ∧
    (preprocess_input_engineered zeroDenomRaw)[8]? = some .nan ∧
    (preprocess_input_engineered zeroDenomRaw)[9]? = some .inf ∧
    (preprocess_input_engineered zeroDenomRaw)[10]? = some .inf ∧
    PyFloat.nan ≠ PyFloat.fin 0 ∧ PyFloat.inf ≠ PyFloat.fin 0 ∧
    preprocess_data_engineered zeroDenomRaw = preprocess_input_engineered zeroDenomRaw := by
  have hlist : preprocess_input_engineered zeroDenomRaw =
      zeroDenomRaw.toList.map PyFloat.fin ++ [.nan, .inf, .inf] := by
    norm_num [preprocess_input_engineered, pydiv, zeroDenomRaw]
  refine ⟨hlist, ?_, ?_, ?_, by decide, by decide, rfl⟩ <;> rw [hlist] <;> rfl

/-- Claim C4: for every input with nonzero `AveRooms` and `AveOccup`, the
engineered vector of `HousePricePredictor.preprocess_input` is the 8 raw
values in order followed by `AveRooms/AveOccup`, `AveBedrms/AveRooms`,
`Population/AveOccup`, so in particular positions 8, 9 and 10 hold those
three finite ratios. -/
theorem engineered_vector_order_and_ratios (x : RawFeatures)
    (hr : x.aveRooms ≠ 0) (ho : x.aveOccup ≠ 0) :
    preprocess_input_engineered x =
      [.fin x.medInc, .fin x.houseAge, .fin x.aveRooms, .fin x.aveBedrms,
       .fin x.population, .fin x.aveOccup, .fin x.latitude, .fin x.longitude,
       .fin (x.aveRooms / x.aveOccup), .fin (x.aveBedrms / x.aveRooms),
       .fin (x.population / x.aveOccup)] ∧
    (preprocess_input_engineered x).length = 11 ∧
    (preprocess_input_engineered x)[8]? = some (.fin (x.aveRooms / x.aveOccup)) ∧
    (preprocess_input_engineered x)[9]? = some (.fin (x.aveBedrms / x.aveRooms)) ∧
    (preprocess_input_engineered x)[10]? = some (.fin (x.population / x.aveOccup)) := by
  have h : preprocess_input_engineered x =
      [.fin x.medInc, .fin x.houseAge, .fin x.aveRooms, .fin x.aveBedrms,
       .fin x.population, .fin x.aveOccup, .fin x.latitude, .fin x.longitude,
       .fin (x.aveRooms / x.aveOccup), .fin (x.aveBedrms / x.aveRooms),
       .fin (x.population / x.aveOccup)] := by
    simp [preprocess_input_engineered, RawFeatures.toList, pydiv, hr, ho]
  exact ⟨h, by rw [h]; rfl, by rw [h]; rfl, by rw [h]; rfl, by rw [h]; rfl⟩

/-- Witness for the C4 theorem at the specification's example input. -/
theorem engineered_vector_order_and_ratios_witness :
    exampleRaw.aveRooms ≠ 0 ∧ exampleRaw.aveOccup ≠ 0 ∧
    (preprocess_input_engineered exampleRaw)[8]? =
      some (.fin (exampleRaw.aveRooms / exampleRaw.aveOccup)) ∧
    (preprocess_input_engineered exampleRaw)[9]? =
      some (.fin (exampleRaw.aveBedrms / exampleRaw.aveRooms)) ∧
    (preprocess_input_engineered exampleRaw)[10]? =
      some (.fin (exampleRaw.population / exampleRaw.aveOccup)) := by
  have hr : exampleRaw.aveRooms ≠ 0 := by norm_num [exampleRaw]
  have ho : exampleRaw.aveOccup ≠ 0 := by norm_num [exampleRaw]
  have h := engineered_vector_order_and_ratios exampleRaw hr ho
  exact ⟨hr, ho, h.2.2.1, h.2.2.2.1, h.2.2.2.2⟩

/-- Claim C3: for an ensemble model with per-member predictions
`ps = es.map (· X)` on a scaled input `X`, `predict_with_confidence` returns
the point prediction `mean(ps)` and the interval
`[mean - 1.96*std, mean + 1.96*std]` with `std` the population standard
deviation (`np.std`, `ddof = 0`), and the interval contains the mean. -/
theorem confidence_interval_mean_std_containment (m : SkModel) (X : List ℝ)
    (es : List (List ℝ → ℝ)) (hens : m.estimators = some es) (hne : es ≠ []) :
    (predict_with_confidence m X).lookup "prediction" =
      some (.num (npMean (es.map (fun e => e X)))) ∧
    (predict_with_confidence m X).lookup "confidence_interval" =
      some (.obj
        [("lower", .num (npMean (es.map (fun e => e X)) -
            1.96 * npStd (es.map (fun e => e X)))),
         ("upper", .num (npMean (es.map (fun e => e X)) +
            1.96 * npStd (es.map (fun e => e X))))]) ∧
    npMean (es.map (fun e => e X)) - 1.96 * npStd (es.map (fun e => e X)) ≤
      npMean (es.map (fun e => e X)) ∧
    npMean (es.map (fun e => e X)) ≤
      npMean (es.map (fun e => e X)) + 1.96 * npStd (es.map (fun e => e X)) := by
  have hstd : 0 ≤ npStd (es.map (fun e => e X)) := Real.sqrt_nonneg _
  refine ⟨?_, ?_, by nlinarith, by nlinarith⟩ <;>
    simp [predict_with_confidence, hens, JVal.lookup]

/-- Witness for the C3 theorem: the two-member demo ensemble. -/
theorem confidence_interval_mean_std_containment_witness :
    demoEnsembleModel.estimators = some demoEstimators ∧
    demoEstimators ≠ [] ∧
    (predict_with_confidence demoEnsembleModel demoScaled).lookup "prediction" =
      some (.num (npMean (demoEstimators.map (fun e => e demoScaled)))) :=
  ⟨rfl, fun h => by simp [demoEstimators] at h,
   (confidence_interval_mean_std_containment demoEnsembleModel demoScaled
      demoEstimators rfl (fun h => by simp [demoEstimators] at h)).1⟩

/-- Claim C5 (counterexample): the local predictor's confidence-interval object
has keys `lower`/`upper` — not the claimed
`lower_bound`/`upper_bound`/`std_dev` (`predict.py:76-79`). -/
theorem local_confidence_interval_keys_counterexample :
    ((predict_with_confidence demoEnsembleModel demoScaled).lookup
        "confidence_interval").bind JVal.keys = some ["lower", "upper"] ∧
    (["lower", "upper"] : List String) ≠ ["lower_bound", "upper_bound", "std_dev"] := by
  constructor
  · simp [predict_with_confidence, demoEnsembleModel, JVal.lookup, JVal.keys]
  · decide

/-- Claim C8: `StandardScaler.transform` is deterministic — two runs on equal
inputs through scalers holding equal fitted per-column means and standard
deviations return equal results. -/
theorem scaler_transform_deterministic (s1 s2 : SkScaler) (x1 x2 : List ℝ)
    (hm : s1.mean = s2.mean) (hs : s1.scale = s2.scale) (hx : x1 = x2) :
    s1.transform x1 = s2.transform x2 := by
  cases s1; cases s2
  dsimp at hm hs
  subst hm; subst hs; subst hx
  rfl

/-- Witness for the C8 theorem: two runs of the demo scaler on the example
row. -/
theorem scaler_transform_deterministic_witness :
    demoScaler.mean = demoScaler.mean ∧ demoScaler.scale = demoScaler.scale ∧
    demoNums = demoNums ∧
    demoScaler.transform demoNums = demoScaler.transform demoNums :=
  ⟨rfl, rfl, rfl,
   scaler_transform_deterministic demoScaler demoScaler demoNums demoNums rfl rfl rfl⟩

/-- A body dict that has a `features` entry passes the `'features' in body`
check. -/
theorem containsFeaturesKey_of_lookup {j f : JVal}
    (h : j.lookup "features" = some f) : containsFeaturesKey j = .ok true := by
  cases j with
  | obj kvs =>
      rcases hfind : List.find? (fun kv => kv.1 = "features") kvs with - | kv
      · simp [JVal.lookup, hfind] at h
      · simp [containsFeaturesKey, hfind]
  | num r => simp [JVal.lookup] at h
  | str s => simp [JVal.lookup] at h
  | bool b => simp [JVal.lookup] at h
  | null => simp [JVal.lookup] at h
  | arr xs => simp [JVal.lookup] at h

/-- Lookup `body['features']` returns exactly the looked-up value on a dict body. -/
theorem getFeatures_of_lookup {j f : JVal}
    (h : j.lookup "features" = some f) : getFeatures j = .ok f := by
  cases j with
  | obj kvs =>
      rcases hfind : List.find? (fun kv => kv.1 = "features") kvs with - | kv
      · simp [JVal.lookup, hfind] at h
      · simp [JVal.lookup, hfind] at h
        simp [getFeatures, hfind, h]
  | num r => simp [JVal.lookup] at h
  | str s => simp [JVal.lookup] at h
  | bool b => simp [JVal.lookup] at h
  | null => simp [JVal.lookup] at h
  | arr xs => simp [JVal.lookup] at h

/-- An all-numeric JSON array converts to its numeric row. -/
theorem toNums_map_num (l : List ℝ) : toNums (l.map JVal.num) = .ok l := by
  induction l with
  | nil => rfl
  | cons a l ih => simp [toNums, ih, Except.map]

/-- A POST to one of the two prediction paths dispatches to the prediction
route (`inference.py:164`). -/
theorem handler_post_route (env : LambdaEnv) (event : LambdaEvent) (p : String)
    (hm : event.httpMethod = some "POST") (hp : event.path = some p)
    (hroute : p = "/predict" ∨ p = "/predict/confidence") :
    handler env event = predictRoute env event p := by
  rcases hroute with rfl | rfl <;> simp [handler, hm, hp]

/-- A `features` value that is not a list of exactly 8 elements makes the
prediction route return the 400 `featureCountError` response before the
model-load, scaling or prediction stages run. -/
theorem predictRoute_bad_feature_shape (env : LambdaEnv) (event : LambdaEvent)
    (p : String) (eb : EventBody) (bodyJ features : JVal)
    (hb : event.body = some eb) (hparse : parseBody eb = .ok bodyJ)
    (hf : bodyJ.lookup "features" = some features)
    (hbad : isListOf8 features = false) :
    predictRoute env event p =
      (create_response 400 (featureCountError features), ⟨false, false, false⟩) := by
  simp [predictRoute, hb, hparse, containsFeaturesKey_of_lookup hf,
        getFeatures_of_lookup hf, hbad]

/-- Claim C6: a POST to `/predict` or `/predict/confidence` whose body has a
`features` value that is not a list of exactly 8 elements is answered with
the 400 `featureCountError` response, identically for every environment, and
with none of the model-load / scaling / prediction stages attempted. -/
theorem bad_feature_shape_rejected_before_model_load
    (env : LambdaEnv) (event : LambdaEvent) (p : String) (eb : EventBody)
    (bodyJ features : JVal)
    (hm : event.httpMethod = some "POST") (hp : event.path = some p)
    (hroute : p = "/predict" ∨ p = "/predict/confidence")
    (hb : event.body = some eb) (hparse : parseBody eb = .ok bodyJ)
    (hf : bodyJ.lookup "features" = some features)
    (hbad : isListOf8 features = false) :
    handler env event =
      (create_response 400 (featureCountError features), ⟨false, false, false⟩) := by
  rw [handler_post_route env event p hm hp hroute,
      predictRoute_bad_feature_shape env event p eb bodyJ features hb hparse hf hbad]

/-- Witness for the C6 theorem: a 3-element features list on `/predict`. -/
theorem bad_feature_shape_rejected_before_model_load_witness :
    badCountEvent.httpMethod = some "POST" ∧
    badCountEvent.path = some "/predict" ∧
    isListOf8 (.arr [.num 1, .num 2, .num 3]) = false ∧
    handler demoEnvEnsemble badCountEvent =
      (create_response 400 (featureCountError (.arr [.num 1, .num 2, .num 3])),
       ⟨false, false, false⟩) :=
  ⟨rfl, rfl, rfl,
   bad_feature_shape_rejected_before_model_load demoEnvEnsemble badCountEvent
     "/predict" _ _ _ rfl rfl (Or.inl rfl) rfl rfl (by simp [JVal.lookup]) rfl⟩

/-- Full reduction of the `/predict/confidence` route for an ensemble model:
the 200 response body, with the interval centered on `model.predict` and
half-width `1.96 * np.std(estimator_predictions)`. -/
theorem predictRoute_confidence_ensemble (env : LambdaEnv) (event : LambdaEvent)
    (eb : EventBody) (bodyJ : JVal) (nums : List ℝ) (model : SkModel)
    (scaler : SkScaler) (scaled : List ℝ) (es : List (List ℝ → ℝ))
    (hb : event.body = some eb) (hparse : parseBody eb = .ok bodyJ)
    (hf : bodyJ.lookup "features" = some (.arr (nums.map JVal.num)))
    (hlen : nums.length = 8) (hload : env.load = .ok (model, scaler))
    (hscale : scaler.transform nums = .ok scaled)
    (hens : model.estimators = some es) :
    predictRoute env event "/predict/confidence" =
      (create_response 200 (.obj
        [("prediction", .num (model.predictFn scaled)),
         ("prediction_description", .str ("Predicted median house value: $" ++
            env.fmt (model.predictFn scaled * 100000))),
         ("features_received", .arr (nums.map JVal.num)),
         ("confidence_interval", .obj
           [("lower_bound", .num (model.predictFn scaled -
               1.96 * npStd (es.map (fun e => e scaled)))),
            ("upper_bound", .num (model.predictFn scaled +
               1.96 * npStd (es.map (fun e => e scaled)))),
            ("std_dev", .num (npStd (es.map (fun e => e scaled))))]),
         ("confidence_interval_description", .str ("95% confidence: $" ++
            env.fmt ((model.predictFn scaled -
              1.96 * npStd (es.map (fun e => e scaled))) * 100000) ++ " - $" ++
            env.fmt ((model.predictFn scaled +
              1.96 * npStd (es.map (fun e => e scaled))) * 100000)))]),
       ⟨true, true, true⟩) := by
  simp [predictRoute, hb, hparse, containsFeaturesKey_of_lookup hf,
        getFeatures_of_lookup hf, isListOf8, hlen, hload, toNums_map_num,
        hscale, hens]

/-- Full reduction of the `/predict/confidence` route for a non-ensemble
model: 200, point prediction, and the warning instead of an interval. -/
theorem predictRoute_confidence_warning (env : LambdaEnv) (event : LambdaEvent)
    (eb : EventBody) (bodyJ : JVal) (nums : List ℝ) (model : SkModel)
    (scaler : SkScaler) (scaled : List ℝ)
    (hb : event.body = some eb) (hparse : parseBody eb = .ok bodyJ)
    (hf : bodyJ.lookup "features" = some (.arr (nums.map JVal.num)))
    (hlen : nums.length = 8) (hload : env.load = .ok (model, scaler))
    (hscale : scaler.transform nums = .ok scaled)
    (hens : model.estimators = none) :
    predictRoute env event "/predict/confidence" =
      (create_response 200 (.obj
        [("prediction", .num (model.predictFn scaled)),
         ("prediction_description", .str ("Predicted median house value: $" ++
            env.fmt (model.predictFn scaled * 100000))),
         ("features_received", .arr (nums.map JVal.num)),
         ("warning", .str "Confidence interval not available for non-ensemble models")]),
       ⟨true, true, true⟩) := by
  simp [predictRoute, hb, hparse, containsFeaturesKey_of_lookup hf,
        getFeatures_of_lookup hf, isListOf8, hlen, hload, toNums_map_num,
        hscale, hens]

/-- Claim C10: on a well-formed `POST /predict/confidence` request with an
ensemble model, the handler's interval is centered on the model's own point
prediction: `lower_bound = prediction - 1.96 * std_dev` and
`upper_bound = prediction + 1.96 * std_dev`, where `prediction` is
`model.predict` on the scaled row and `std_dev = np.std` (population) of the
per-member predictions; hence the bounds sum to `2 * prediction` and
`std_dev ≥ 0`. -/
theorem cloud_confidence_centered_on_model_prediction
    (env : LambdaEnv) (event : LambdaEvent) (eb : EventBody) (bodyJ : JVal)
    (nums : List ℝ) (model : SkModel) (scaler : SkScaler) (scaled : List ℝ)
    (es : List (List ℝ → ℝ))
    (hm : event.httpMethod = some "POST")
    (hp : event.path = some "/predict/confidence")
    (hb : event.body = some eb) (hparse : parseBody eb = .ok bodyJ)
    (hf : bodyJ.lookup "features" = some (.arr (nums.map JVal.num)))
    (hlen : nums.length = 8) (hload : env.load = .ok (model, scaler))
    (hscale : scaler.transform nums = .ok scaled)
    (hens : model.estimators = some es) (hne : es ≠ []) :
    (handler env event).1.statusCode = 200 ∧
    (handler env event).1.body.lookup "prediction" =
      some (.num (model.predictFn scaled)) ∧
    (handler env event).1.body.lookup "confidence_interval" =
      some (.obj
        [("lower_bound", .num (model.predictFn scaled -
            1.96 * npStd (es.map (fun e => e scaled)))),
         ("upper_bound", .num (model.predictFn scaled +
            1.96 * npStd (es.map (fun e => e scaled)))),
         ("std_dev", .num (npStd (es.map (fun e => e scaled))))]) ∧
    (model.predictFn scaled - 1.96 * npStd (es.map (fun e => e scaled))) +
      (model.predictFn scaled + 1.96 * npStd (es.map (fun e => e scaled))) =
      2 * model.predictFn scaled ∧
    0 ≤ npStd (es.map (fun e => e scaled)) := by
  rw [handler_post_route env event _ hm hp (Or.inr rfl),
      predictRoute_confidence_ensemble env event eb bodyJ nums model scaler
        scaled es hb hparse hf hlen hload hscale hens]
  refine ⟨rfl, ?_, ?_, by ring, Real.sqrt_nonneg _⟩ <;>
    simp [create_response, JVal.lookup]

/-- Witness for the C10 theorem: the demo ensemble environment on the
well-formed confidence request. -/
theorem cloud_confidence_centered_on_model_prediction_witness :
    demoEventConfidence.httpMethod = some "POST" ∧
    demoEnvEnsemble.load = .ok (demoEnsembleModel, demoScaler) ∧
    demoEnsembleModel.estimators = some demoEstimators ∧
    demoScaler.transform demoNums = .ok demoScaled ∧
    (handler demoEnvEnsemble demoEventConfidence).1.statusCode = 200 ∧
    (handler demoEnvEnsemble demoEventConfidence).1.body.lookup "confidence_interval" =
      some (.obj
        [("lower_bound", .num (demoEnsembleModel.predictFn demoScaled -
            1.96 * npStd (demoEstimators.map (fun e => e demoScaled)))),
         ("upper_bound", .num (demoEnsembleModel.predictFn demoScaled +
            1.96 * npStd (demoEstimators.map (fun e => e demoScaled)))),
         ("std_dev", .num (npStd (demoEstimators.map (fun e => e demoScaled))))]) := by
  have h := cloud_confidence_centered_on_model_prediction demoEnvEnsemble
    demoEventConfidence _ _ demoNums demoEnsembleModel demoScaler demoScaled
    demoEstimators rfl rfl rfl rfl (by simp [JVal.lookup]) rfl rfl rfl rfl
    (by simp [demoEstimators])
  exact ⟨rfl, rfl, rfl, rfl, h.1, h.2.2.1⟩

/-- Claim C7: for a model with no enumerable sub-estimators, neither serving
surface fails: the local predictor's `predict_with_confidence` returns just
`{'prediction': ...}` (no `confidence_interval` key), and the cloud handler
answers `/predict/confidence` with status 200, a valid point prediction, no
`confidence_interval`, and the explanatory warning string. -/
theorem non_ensemble_fallback :
    (∀ (m : SkModel) (X : List ℝ), m.estimators = none →
      predict_with_confidence m X = .obj [("prediction", .num (m.predictFn X))] ∧
      (predict_with_confidence m X).lookup "confidence_interval" = none ∧
      (predict_with_confidence m X).lookup "prediction" =
        some (.num (m.predictFn X))) ∧
    (∀ (env : LambdaEnv) (event : LambdaEvent) (eb : EventBody) (bodyJ : JVal)
      (nums : List ℝ) (model : SkModel) (scaler : SkScaler) (scaled : List ℝ),
      event.httpMethod = some "POST" →
      event.path = some "/predict/confidence" →
      event.body = some eb → parseBody eb = .ok bodyJ →
      bodyJ.lookup "features" = some (.arr (nums.map JVal.num)) →
      nums.length = 8 → env.load = .ok (model, scaler) →
      scaler.transform nums = .ok scaled →
      model.estimators = none →
      (handler env event).1.statusCode = 200 ∧
      (handler env event).1.body.lookup "prediction" =
        some (.num (model.predictFn scaled)) ∧
      (handler env event).1.body.lookup "confidence_interval" = none ∧
      (handler env event).1.body.lookup "warning" =
        some (.str "Confidence interval not available for non-ensemble models")) := by
  constructor
  · intro m X hens
    refine ⟨?_, ?_, ?_⟩ <;> simp [predict_with_confidence, hens, JVal.lookup]
  · intro env event eb bodyJ nums model scaler scaled hm hp hb hparse hf hlen
      hload hscale hens
    rw [handler_post_route env event _ hm hp (Or.inr rfl),
        predictRoute_confidence_warning env event eb bodyJ nums model scaler
          scaled hb hparse hf hlen hload hscale hens]
    refine ⟨rfl, ?_, ?_, ?_⟩ <;> simp [create_response, JVal.lookup]

/-- Witness for the C7 theorem: the demo non-ensemble model on both serving
surfaces. -/
theorem non_ensemble_fallback_witness :
    demoPointModel.estimators = none ∧
    predict_with_confidence demoPointModel demoScaled =
      .obj [("prediction", .num (demoPointModel.predictFn demoScaled))] ∧
    demoEnvPoint.load = .ok (demoPointModel, demoScaler) ∧
    (handler demoEnvPoint demoEventConfidence).1.statusCode = 200 ∧
    (handler demoEnvPoint demoEventConfidence).1.body.lookup "confidence_interval" =
      none ∧
    (handler demoEnvPoint demoEventConfidence).1.body.lookup "warning" =
      some (.str "Confidence interval not available for non-ensemble models") := by
  have h1 := non_ensemble_fallback.1 demoPointModel demoScaled rfl
  have h2 := non_ensemble_fallback.2 demoEnvPoint demoEventConfidence _ _
    demoNums demoPointModel demoScaler demoScaled rfl rfl rfl rfl
    (by simp [JVal.lookup]) rfl rfl rfl rfl
  exact ⟨rfl, h1.1, rfl, h2.1, h2.2.2.1, h2.2.2.2⟩

/-- Claim C5 (amended): the confidence-interval object's fields differ by
surface — the cloud handler returns exactly
`lower_bound`/`upper_bound`/`std_dev`, while the local predictor returns
exactly `lower`/`upper` (and no `std_dev`). -/
theorem confidence_interval_field_names_by_surface :
    (∀ (m : SkModel) (X : List ℝ) (es : List (List ℝ → ℝ)),
      m.estimators = some es →
      ((predict_with_confidence m X).lookup "confidence_interval").bind JVal.keys =
        some ["lower", "upper"]) ∧
    (∀ (env : LambdaEnv) (event : LambdaEvent) (eb : EventBody) (bodyJ : JVal)
      (nums : List ℝ) (model : SkModel) (scaler : SkScaler) (scaled : List ℝ)
      (es : List (List ℝ → ℝ)),
      event.httpMethod = some "POST" →
      event.path = some "/predict/confidence" →
      event.body = some eb → parseBody eb = .ok bodyJ →
      bodyJ.lookup "features" = some (.arr (nums.map JVal.num)) →
      nums.length = 8 → env.load = .ok (model, scaler) →
      scaler.transform nums = .ok scaled →
      model.estimators = some es →
      (((handler env event).1.body.lookup "confidence_interval").bind JVal.keys =
        some ["lower_bound", "upper_bound", "std_dev"])) := by
  constructor
  · intro m X es hens
    simp [predict_with_confidence, hens, JVal.lookup, JVal.keys]
  · intro env event eb bodyJ nums model scaler scaled es hm hp hb hparse hf
      hlen hload hscale hens
    rw [handler_post_route env event _ hm hp (Or.inr rfl),
        predictRoute_confidence_ensemble env event eb bodyJ nums model scaler
          scaled es hb hparse hf hlen hload hscale hens]
    simp [create_response, JVal.lookup, JVal.keys]

/-- Witness for the amended C5 theorem: both surfaces on the demo ensemble. -/
theorem confidence_interval_field_names_by_surface_witness :
    demoEnsembleModel.estimators = some demoEstimators ∧
    ((predict_with_confidence demoEnsembleModel demoScaled).lookup
        "confidence_interval").bind JVal.keys = some ["lower", "upper"] ∧
    (((handler demoEnvEnsemble demoEventConfidence).1.body.lookup
        "confidence_interval").bind JVal.keys =
      some ["lower_bound", "upper_bound", "std_dev"]) :=
  ⟨rfl,
   confidence_interval_field_names_by_surface.1 demoEnsembleModel demoScaled
     demoEstimators rfl,
   confidence_interval_field_names_by_surface.2 demoEnvEnsemble
     demoEventConfidence _ _ demoNums demoEnsembleModel demoScaler demoScaled
     demoEstimators rfl rfl rfl rfl (by simp [JVal.lookup]) rfl rfl rfl rfl⟩

/-- The fixed headers of `create_response` always carry the JSON content
type and the permissive CORS origin. -/
theorem create_response_headers (c : ℕ) (b : JVal) :
    ("Content-Type", "application/json") ∈ (create_response c b).headers ∧
    ("Access-Control-Allow-Origin", "*") ∈ (create_response c b).headers := by
  constructor <;> simp [create_response]

/-- Every exit of the prediction route is a `create_response` with status
200, 400 or 500. -/
theorem predictRoute_statusCode (env : LambdaEnv) (event : LambdaEvent)
    (p : String) :
    ∃ c b t, predictRoute env event p = (create_response c b, t) ∧
      (c = 200 ∨ c = 400 ∨ c = 500) := by
  unfold predictRoute
  repeat' split
  all_goals refine ⟨_, _, _, rfl, by norm_num⟩

/-- Claim C9: for every event — any method, path or body, including missing
keys — the handler's response is a `create_response`, so it carries a
`json.dumps`-serialised body and headers including
`Content-Type: application/json` and `Access-Control-Allow-Origin: *`, and
its status code is one of 200, 400, 404, 500, 503. -/
theorem handler_always_cors_json_response (env : LambdaEnv)
    (event : LambdaEvent) :
    ∃ c b, (handler env event).1 = create_response c b ∧
      (c = 200 ∨ c = 400 ∨ c = 404 ∨ c = 500 ∨ c = 503) ∧
      ("Content-Type", "application/json") ∈ (handler env event).1.headers ∧
      ("Access-Control-Allow-Origin", "*") ∈ (handler env event).1.headers := by
  unfold handler
  dsimp only
  split
  · exact ⟨200, _, rfl, by norm_num, create_response_headers _ _⟩
  split
  · split
    · exact ⟨200, _, rfl, by norm_num, create_response_headers _ _⟩
    · exact ⟨503, _, rfl, by norm_num, create_response_headers _ _⟩
  split
  · obtain ⟨c, b, t, heq, hc⟩ := predictRoute_statusCode env event _
    refine ⟨c, b, ?_, ?_, ?_⟩
    · rw [heq]
    · rcases hc with rfl | rfl | rfl <;> norm_num
    · rw [heq]; exact create_response_headers _ _
  · exact ⟨404, _, rfl, by norm_num, create_response_headers _ _⟩

end LocalMLPipeline
